import Mathlib

/-!
Shallow embedding of the Monash handbook scraper's requirement-tree core.

Two components are embedded from the Go source:
* the requisite satisfaction evaluator (`scrapers/units/requisite_checker.go`):
  `CheckRequisites`, `checkContainer`, `checkContainerLogic`, `checkAndLogic`,
  `checkOrLogic`, `isUnitCompleted`;
* the curriculum structure builder (`scrapers/common`, curriculum parsing):
  `ParseCurriculum`, `parseContainers`, `parseItems`, together with the string
  utilities they use (`utils.StringToInt`, `utils.RemoveHTMLTags`) and the
  dotted-path navigation of `utils/json_navigator.go`.

Go's `(value, error)` returns and panics are both modelled with
`Except String`: a Go function that returns a non-nil error, or panics on a
failed type assertion, is an `Except.error` here.  Raw JSON documents
(`map[string]interface{}`) are modelled by the `JValue` tree with objects as
association lists (JSON objects have unique keys, so first-match lookup agrees
with Go's map lookup).
-/

namespace Handbook

namespace common

/-- common.Unit from `scrapers/common`: a completed academic unit supplied by
the caller of the requisite checker.  Matching uses only the `code` field. -/
structure Unit where
  code : String
  name : String
  creditPoints : Int
  description : String
  url : String
deriving DecidableEq

end common

/-- CompressedUnit from the unit scraper's compressed requisite structures. -/
structure CompressedUnit where
  unitCode : String
  unitNumber : String
deriving DecidableEq

/-- CompressedContainer: a relationship label ("AND" or "OR"), the direct
units, and the nested containers. -/
inductive CompressedContainer : Type where
  | mk : String → List CompressedUnit → List CompressedContainer → CompressedContainer

/-- Relationship field of a CompressedContainer. -/
def CompressedContainer.relationship : CompressedContainer → String
  | .mk r _ _ => r

/-- Units field of a CompressedContainer. -/
def CompressedContainer.units : CompressedContainer → List CompressedUnit
  | .mk _ us _ => us

/-- Containers field of a CompressedContainer. -/
def CompressedContainer.containers : CompressedContainer → List CompressedContainer
  | .mk _ _ cs => cs

/-- CompressedRequisite: requisite type ("Prerequisite" or "Prohibition") and
its top-level containers. -/
structure CompressedRequisite where
  requisiteType : String
  containers : List CompressedContainer

/-- UnitData, restricted to the field `CheckRequisites` reads.  The Go struct
carries many further scraped display fields (synopsis, offerings, assessments,
and so on) that the requisite checker never touches. -/
structure UnitData where
  requisites : List CompressedRequisite

/-- isUnitCompleted: true iff some completed unit's Code equals the unit's
UnitCode (exact string equality; the Go code iterates the completed list). -/
def isUnitCompleted (unit : CompressedUnit) (completedUnits : List common.Unit) : Bool :=
  completedUnits.any (fun completed => completed.code == unit.unitCode)

/-- joinSep models the message-rendering loops of checkAndLogic and
checkOrLogic: each code is appended, with the separator inserted after every
element except the last. -/
def joinSep (sep : String) : List String → String
  | [] => ""
  | [u] => u
  | u :: v :: rest => u ++ sep ++ joinSep sep (v :: rest)

theorem list_sizeOf_pos {α : Type} [SizeOf α] (l : List α) : 0 < sizeOf l := by
  cases l <;> simp_arith

theorem containers_sizeOf_lt (c : CompressedContainer) : sizeOf c.containers + 1 < sizeOf c := by
  cases c with
  | mk r us cs =>
      have h := list_sizeOf_pos us
      simp [CompressedContainer.containers]
      omega

theorem singleton_sizeOf_lt (sub : CompressedContainer) {cs : List CompressedContainer}
    (h : sub ∈ cs) : sizeOf [sub] ≤ sizeOf cs := by
  induction cs with
  | nil => cases h
  | cons head tail ih =>
      rcases List.mem_cons.mp h with rfl | hmem
      · have := list_sizeOf_pos tail
        simp
        omega
      · have := ih hmem
        simp at this ⊢
        have hh : 0 ≤ sizeOf head := Nat.zero_le _
        omega

mutual

/-- checkContainerLogic: dispatch on the container's Relationship.  Anything
other than "AND"/"OR" is a hard error. -/
def checkContainerLogic (container : CompressedContainer)
    (completedUnits : List common.Unit) (isProhibition : Bool) :
    Except String (Bool × List String) :=
  if container.relationship == "AND" then
    checkAndLogic container completedUnits isProhibition
  else if container.relationship == "OR" then
    checkOrLogic container completedUnits isProhibition
  else
    .error ("unknown relationship type: " ++ container.relationship)
termination_by 5 * sizeOf container + 1
decreasing_by
  all_goals simp_wf
  all_goals
    first
      | omega
      | (have h1 := containers_sizeOf_lt container; omega)
      | (have h2 := list_sizeOf_pos rest; omega)

/-- checkAndLogic, translated line for line from the Go source.  In
prerequisite mode the uncompleted direct units are collected, the
subcontainers are checked (messages of unmet ones accumulated first), and then
the single "Requires: ..." message is appended.  In prohibition mode the
completed direct units are collected instead and rendered as
"Prohibited by: ...". -/
def checkAndLogic (container : CompressedContainer)
    (completedUnits : List common.Unit) (isProhibition : Bool) :
    Except String (Bool × List String) :=
  if container.units.isEmpty && container.containers.isEmpty then
    .ok (true, [])
  else if !isProhibition then
    let mentionedUnits :=
      (container.units.filter (fun u => !isUnitCompleted u completedUnits)).map
        (fun u => u.unitCode)
    match subUnmetLoop container.containers completedUnits isProhibition with
    | .error e => .error e
    | .ok subUnmet =>
        let unmetRequisites :=
          subUnmet ++
            (if mentionedUnits.isEmpty then []
             else ["Requires: " ++ joinSep " and " mentionedUnits])
        if unmetRequisites.isEmpty then .ok (true, [])
        else .ok (false, unmetRequisites)
  else
    let mentionedUnits :=
      (container.units.filter (fun u => isUnitCompleted u completedUnits)).map
        (fun u => u.unitCode)
    match subUnmetLoop container.containers completedUnits isProhibition with
    | .error e => .error e
    | .ok subUnmet =>
        let unmetRequisites :=
          subUnmet ++
            (if mentionedUnits.isEmpty then []
             else ["Prohibited by: " ++ joinSep " and " mentionedUnits])
        if unmetRequisites.isEmpty then .ok (true, [])
        else .ok (false, unmetRequisites)
termination_by 5 * sizeOf container
decreasing_by
  all_goals simp_wf
  all_goals
    first
      | omega
      | (have h1 := containers_sizeOf_lt container; omega)
      | (have h2 := list_sizeOf_pos rest; omega)

/-- checkOrLogic, translated from the Go source.  Prerequisite mode
short-circuits on the first completed unit or first met subcontainer;
otherwise it renders "Requires one of: ..." and then collects the
subcontainers' messages.  Prohibition mode collects every completed direct
unit and a "sub-container" mention for every met (non-violated) subcontainer,
renders "Prohibited by one of: ...", and then collects the subcontainers'
messages.  When nothing accumulated, the result is the prohibition flag. -/
def checkOrLogic (container : CompressedContainer)
    (completedUnits : List common.Unit) (isProhibition : Bool) :
    Except String (Bool × List String) :=
  if container.units.isEmpty && container.containers.isEmpty then
    .ok (true, [])
  else if !isProhibition then
    if container.units.any (fun u => isUnitCompleted u completedUnits) then
      .ok (true, [])
    else
      match orFindMet container.containers completedUnits isProhibition with
      | .error e => .error e
      | .ok true => .ok (true, [])
      | .ok false =>
          let mentionedUnits :=
            (container.units.filter (fun u => !isUnitCompleted u completedUnits)).map
              (fun u => u.unitCode)
          let unmetRequisites :=
            (if mentionedUnits.isEmpty then []
             else ["Requires one of: " ++ joinSep " or " mentionedUnits]) ++
              collectSubMessages container.containers completedUnits isProhibition
          if unmetRequisites.isEmpty then .ok (isProhibition, [])
          else .ok (false, unmetRequisites)
  else
    match orProhibMentions container.containers completedUnits isProhibition with
    | .error e => .error e
    | .ok subMentions =>
        let mentionedUnits :=
          ((container.units.filter (fun u => isUnitCompleted u completedUnits)).map
            (fun u => u.unitCode)) ++ subMentions
        let unmetRequisites :=
          (if mentionedUnits.isEmpty then []
           else ["Prohibited by one of: " ++ joinSep " or " mentionedUnits]) ++
            collectSubMessages container.containers completedUnits isProhibition
        if unmetRequisites.isEmpty then .ok (isProhibition, [])
        else .ok (false, unmetRequisites)
termination_by 5 * sizeOf container
decreasing_by
  all_goals simp_wf
  all_goals
    first
      | omega
      | (have h1 := containers_sizeOf_lt container; omega)
      | (have h2 := list_sizeOf_pos rest; omega)

/-- checkContainerAux: the accumulation loop of checkContainer.  Each
container is evaluated; messages of unmet containers are accumulated in order;
the first error aborts (wrapped as in the Go source). -/
def checkContainerAux (containers : List CompressedContainer)
    (completedUnits : List common.Unit) (isProhibition : Bool) :
    Except String (List String) :=
  match containers with
  | [] => .ok []
  | c :: rest =>
      match checkContainerLogic c completedUnits isProhibition with
      | .error e => .error ("error checking container logic: " ++ e)
      | .ok (met, messages) =>
          match checkContainerAux rest completedUnits isProhibition with
          | .error e => .error e
          | .ok restMsgs => .ok ((if met then [] else messages) ++ restMsgs)
termination_by 5 * sizeOf containers + 2
decreasing_by
  all_goals simp_wf
  all_goals
    first
      | omega
      | (have h1 := containers_sizeOf_lt container; omega)
      | (have h2 := list_sizeOf_pos rest; omega)

/-- checkContainer: an empty list is trivially met; otherwise the accumulated
unmet messages decide the boolean (false iff some message accumulated). -/
def checkContainer (containers : List CompressedContainer)
    (completedUnits : List common.Unit) (isProhibition : Bool) :
    Except String (Bool × List String) :=
  if containers.isEmpty then .ok (true, [])
  else
    match checkContainerAux containers completedUnits isProhibition with
    | .error e => .error e
    | .ok unmet =>
        if unmet.isEmpty then .ok (true, []) else .ok (false, unmet)
termination_by 5 * sizeOf containers + 3
decreasing_by
  all_goals simp_wf
  all_goals
    first
      | omega
      | (have h1 := containers_sizeOf_lt container; omega)
      | (have h2 := list_sizeOf_pos rest; omega)

/-- subUnmetLoop: the subcontainer loop shared by both branches of
checkAndLogic.  Each subcontainer is checked through `checkContainer` on a
singleton list, exactly as the Go source does; messages of unmet
subcontainers are accumulated, errors abort with the Go wrapper text. -/
def subUnmetLoop (containers : List CompressedContainer)
    (completedUnits : List common.Unit) (isProhibition : Bool) :
    Except String (List String) :=
  match containers with
  | [] => .ok []
  | sub :: rest =>
      match checkContainer [sub] completedUnits isProhibition with
      | .error e => .error ("error checking subcontainer: " ++ e)
      | .ok (met, messages) =>
          match subUnmetLoop rest completedUnits isProhibition with
          | .error e => .error e
          | .ok restMsgs => .ok ((if met then [] else messages) ++ restMsgs)
termination_by 5 * sizeOf containers + 4
decreasing_by
  all_goals simp_wf
  all_goals
    first
      | omega
      | (have h1 := containers_sizeOf_lt container; omega)
      | (have h2 := list_sizeOf_pos rest; omega)

/-- orFindMet: the prerequisite-mode subcontainer loop of checkOrLogic.
Returns true as soon as a subcontainer is met (short-circuit), propagating the
first error. -/
def orFindMet (containers : List CompressedContainer)
    (completedUnits : List common.Unit) (isProhibition : Bool) :
    Except String Bool :=
  match containers with
  | [] => .ok false
  | sub :: rest =>
      match checkContainer [sub] completedUnits isProhibition with
      | .error e => .error ("error checking subcontainer: " ++ e)
      | .ok (met, _) =>
          if met then .ok true
          else orFindMet rest completedUnits isProhibition
termination_by 5 * sizeOf containers + 4
decreasing_by
  all_goals simp_wf
  all_goals
    first
      | omega
      | (have h1 := containers_sizeOf_lt container; omega)
      | (have h2 := list_sizeOf_pos rest; omega)

/-- orProhibMentions: the prohibition-mode subcontainer loop of checkOrLogic.
Every met (non-violated) subcontainer contributes the literal mention
"sub-container"; errors abort. -/
def orProhibMentions (containers : List CompressedContainer)
    (completedUnits : List common.Unit) (isProhibition : Bool) :
    Except String (List String) :=
  match containers with
  | [] => .ok []
  | sub :: rest =>
      match checkContainer [sub] completedUnits isProhibition with
      | .error e => .error ("error checking subcontainer: " ++ e)
      | .ok (met, _) =>
          match orProhibMentions rest completedUnits isProhibition with
          | .error e => .error e
          | .ok restMentions =>
              .ok ((if met then ["sub-container"] else []) ++ restMentions)
termination_by 5 * sizeOf containers + 4
decreasing_by
  all_goals simp_wf
  all_goals
    first
      | omega
      | (have h1 := containers_sizeOf_lt container; omega)
      | (have h2 := list_sizeOf_pos rest; omega)

/-- collectSubMessages: the final message-collection loop of checkOrLogic.
It re-evaluates every subcontainer, keeps the messages regardless of the met
flag, and silently drops errors (the Go source discards both). -/
def collectSubMessages (containers : List CompressedContainer)
    (completedUnits : List common.Unit) (isProhibition : Bool) : List String :=
  match containers with
  | [] => []
  | sub :: rest =>
      (match checkContainer [sub] completedUnits isProhibition with
       | .ok (_, messages) => messages
       | .error _ => []) ++ collectSubMessages rest completedUnits isProhibition
termination_by 5 * sizeOf containers + 4
decreasing_by
  all_goals simp_wf
  all_goals
    first
      | omega
      | (have h1 := containers_sizeOf_lt container; omega)
      | (have h2 := list_sizeOf_pos rest; omega)

end

/-- checkRequisitesLoop: the requisite loop of CheckRequisites.  Prerequisite
containers are checked with the prohibition flag false, prohibition containers
with the flag true; messages of unmet requisites accumulate in source order,
and requisites of any other type are skipped. -/
def checkRequisitesLoop (requisites : List CompressedRequisite)
    (completedUnits : List common.Unit) : Except String (List String) :=
  match requisites with
  | [] => .ok []
  | req :: rest =>
      if req.requisiteType == "Prerequisite" then
        match checkContainer req.containers completedUnits false with
        | .error e => .error ("error checking prerequisite container: " ++ e)
        | .ok (met, messages) =>
            match checkRequisitesLoop rest completedUnits with
            | .error e => .error e
            | .ok restMsgs => .ok ((if met then [] else messages) ++ restMsgs)
      else if req.requisiteType == "Prohibition" then
        match checkContainer req.containers completedUnits true with
        | .error e => .error ("error checking prohibition container: " ++ e)
        | .ok (met, messages) =>
            match checkRequisitesLoop rest completedUnits with
            | .error e => .error e
            | .ok restMsgs => .ok ((if met then [] else messages) ++ restMsgs)
      else
        checkRequisitesLoop rest completedUnits

/-- CheckRequisites: an empty requisite list is trivially satisfied; otherwise
the accumulated unmet messages decide the boolean result. -/
def CheckRequisites (unitData : UnitData) (completedUnits : List common.Unit) :
    Except String (Bool × List String) :=
  if unitData.requisites.isEmpty then .ok (true, [])
  else
    match checkRequisitesLoop unitData.requisites completedUnits with
    | .error e => .error e
    | .ok unmet =>
        if unmet.isEmpty then .ok (true, []) else .ok (false, unmet)

/-! ### String utilities (`utils/string_utils.go`) -/

/-- isRegexSpace: the character class matched by Go's regexp `\s`
(tab, newline, form feed, carriage return, space). -/
def isRegexSpace (c : Char) : Bool :=
  c == ' ' || c == '\t' || c == '\n' || c == '\x0c' || c == '\r'

/-- matchBrLen: given the characters following a literal `<`, the number of
them consumed by a match of the rest of the pattern `<br\s*/?>` (the literal
`br`, optional whitespace, an optional `/`, then `>`), if it matches here. -/
def matchBrLen : List Char → Option Nat
  | 'b' :: 'r' :: rest =>
      let ws := rest.takeWhile isRegexSpace
      match rest.drop ws.length with
      | '/' :: '>' :: _ => some (2 + ws.length + 2)
      | '>' :: _ => some (2 + ws.length + 1)
      | _ => none
  | _ => none

theorem dropWhile_length_le {α : Type} (p : α → Bool) (l : List α) :
    (l.dropWhile p).length ≤ l.length := by
  induction l with
  | nil => simp
  | cons hd tl ih =>
      by_cases hp : p hd = true
      · simp [List.dropWhile, hp]
        omega
      · simp [List.dropWhile, hp]

/-- brPass: the first pass of RemoveHTMLTags, replacing every leftmost
non-overlapping match of `<br\s*/?>` with a newline. -/
def brPass : List Char → List Char
  | [] => []
  | c :: rest =>
      if c == '<' then
        match matchBrLen rest with
        | some n => '\n' :: brPass (rest.drop n)
        | none => c :: brPass rest
      else c :: brPass rest
termination_by l => l.length
decreasing_by
  all_goals simp_wf
  all_goals try simp [List.length_drop]
  all_goals omega

/-- stripTags: the second pass of RemoveHTMLTags, removing every match of
`<[^>]*>` (everything from a `<` through the first following `>`; a `<` with
no later `>` cannot start a match, and then no later character can either). -/
def stripTags : List Char → List Char
  | [] => []
  | c :: rest =>
      if c == '<' then
        if rest.contains '>' then
          stripTags ((rest.dropWhile (fun x => x != '>')).drop 1)
        else c :: rest
      else c :: stripTags rest
termination_by l => l.length
decreasing_by
  all_goals simp_wf
  all_goals try (have hdw := dropWhile_length_le (fun x => x != '>') rest)
  all_goals try simp [List.length_drop]
  all_goals omega

/-- RemoveHTMLTags from utils/string_utils.go: replace `<br ...>` tags with
newlines, then strip all remaining HTML tags. -/
def RemoveHTMLTags (s : String) : String :=
  String.mk (stripTags (brPass s.data))

/-- firstDigitRunAux: skip to the first decimal digit, then take the maximal
run of digits — the leftmost match of the Go regexp `[0-9]+`. -/
def firstDigitRunAux : List Char → List Char
  | [] => []
  | c :: rest =>
      if c.isDigit then c :: rest.takeWhile Char.isDigit
      else firstDigitRunAux rest

/-- digitsToNat: the decimal value of a run of digits (what strconv.Atoi
computes on a digit-only string, before its range check). -/
def digitsToNat (l : List Char) : Nat :=
  l.foldl (fun acc c => 10 * acc + (c.toNat - 48)) 0

/-- StringToInt from utils/string_utils.go: extract the first run of digits
and convert it with strconv.Atoi, discarding the error — an absent run, or a
run whose value overflows Go's 64-bit int (on which Atoi errors), yields 0. -/
def StringToInt (s : String) : Int :=
  let numStr := firstDigitRunAux s.data
  if numStr.isEmpty then 0
  else if digitsToNat numStr ≤ 9223372036854775807 then (digitsToNat numStr : Int)
  else 0

/-! ### Raw JSON documents and the typed field accessor
(`utils/json_navigator.go`) -/

/-- JValue: a decoded JSON document as handled by the curriculum parser.
JSON numbers and booleans are omitted: the parser type-asserts only strings,
arrays and objects and treats every other shape as an assertion failure,
which `null` already represents.  Objects are association lists; JSON objects
have unique keys, so first-match lookup agrees with Go's map lookup. -/
inductive JValue : Type where
  | s : String → JValue
  | arr : List JValue → JValue
  | obj : List (String × JValue) → JValue
  | null : JValue

/-- jLookup: Go map indexing `m[key]`, with a missing key as `none`. -/
def jLookup : List (String × JValue) → String → Option JValue
  | [], _ => none
  | (k, v) :: rest, key => if k == key then some v else jLookup rest key

/-- jString: Go's checked type assertion `value.(string)`. -/
def jString : Option JValue → Option String
  | some (.s str) => some str
  | _ => none

/-- jStringD models Go's `v, _ := x.(string)`: the zero value "" on failure. -/
def jStringD (v : Option JValue) : String :=
  (jString v).getD ""

/-- jArrOpt: Go's checked type assertion `value.([]interface{})`. -/
def jArrOpt : Option JValue → Option (List JValue)
  | some (.arr l) => some l
  | _ => none

/-- jObjD models Go's `v, _ := x.(map[string]interface{})`: a nil map on
failure, on which every subsequent lookup misses. -/
def jObjD : Option JValue → List (String × JValue)
  | some (.obj m) => m
  | _ => []

/-- findInterface from utils/json_navigator.go: walk the dotted path; a
missing key or a non-object intermediate value is an error, modelled as
`none`. -/
def findInterface (current : List (String × JValue)) : List String → Option JValue
  | [] => none
  | [key] => jLookup current key
  | key :: rest =>
      match jLookup current key with
      | some (.obj nested) => findInterface nested rest
      | _ => none

/-- getCurriculumStructure: `GetTypedValue[map[string]interface{}]` at the
fixed path "props.pageProps.pageContent.curriculumStructure"; every failure
(path miss, nil, or a non-object value) gives the zero value, a nil map. -/
def getCurriculumStructure (data : List (String × JValue)) : List (String × JValue) :=
  match findInterface data ["props", "pageProps", "pageContent", "curriculumStructure"] with
  | some (.obj m) => m
  | _ => []

/-! ### Curriculum display tree (`scrapers/common`) -/

/-- AcademicItem: a leaf of the curriculum display tree. -/
structure AcademicItem where
  type : String
  title : String
  code : String
  description : String
  creditPoints : Int
  url : String
deriving DecidableEq

/-- Container: a recursive node of the curriculum display tree. -/
inductive Container : Type where
  | mk : String → String → Int → List Container → List AcademicItem → String → Container

/-- Title field of a Container. -/
def Container.title : Container → String
  | .mk t _ _ _ _ _ => t

/-- Description field of a Container. -/
def Container.description : Container → String
  | .mk _ d _ _ _ _ => d

/-- CreditPointsRequired field of a Container. -/
def Container.creditPointsRequired : Container → Int
  | .mk _ _ cp _ _ _ => cp

/-- Containers field of a Container. -/
def Container.containers : Container → List Container
  | .mk _ _ _ cs _ _ => cs

/-- AcademicItems field of a Container. -/
def Container.academicItems : Container → List AcademicItem
  | .mk _ _ _ _ ais _ => ais

/-- Connector field of a Container. -/
def Container.connector : Container → String
  | .mk _ _ _ _ _ conn => conn

/-- Part: a top-level section of the curriculum. -/
structure Part where
  title : String
  description : String
  creditPointsRequired : Int
  containers : List Container
  academicItems : List AcademicItem
  order : Int
  connector : String

/-- Curriculum: total credit points plus the ordered parts. -/
structure Curriculum where
  totalCreditPoints : Int
  parts : List Part

/-! ### Curriculum structure builder (`ParseCurriculum` and helpers) -/

/-- parseItemsLoop: one AcademicItem per structured element; non-object
elements are skipped with a diagnostic. -/
def parseItemsLoop : List JValue → List AcademicItem
  | [] => []
  | iv :: rest =>
      match iv with
      | .obj itemMap =>
          { type := jStringD (jLookup (jObjD (jLookup itemMap "academic_item_type")) "value")
            title := jStringD (jLookup itemMap "academic_item_name")
            code := jStringD (jLookup itemMap "academic_item_code")
            description := RemoveHTMLTags (jStringD (jLookup itemMap "description"))
            creditPoints := StringToInt (jStringD (jLookup itemMap "academic_item_credit_points"))
            url := jStringD (jLookup itemMap "academic_item_url") } :: parseItemsLoop rest
      | _ => parseItemsLoop rest

/-- parseItems: a non-slice relationship value yields the empty item list.
The Go function finally also writes a "connector" entry back into the parent
map; no later code reads that entry, so the dead write is omitted here. -/
def parseItems (itemsData : JValue) : List AcademicItem :=
  match itemsData with
  | .arr l => parseItemsLoop l
  | _ => []

theorem jLookup_sizeOf {m : List (String × JValue)} {key : String} {v : JValue}
    (h : jLookup m key = some v) : sizeOf v < sizeOf m := by
  induction m with
  | nil => simp [jLookup] at h
  | cons hd tl ih =>
      obtain ⟨k, w⟩ := hd
      by_cases hk : (k == key) = true
      · simp [jLookup, hk] at h
        subst h
        simp
        omega
      · simp [jLookup, hk] at h
        have := ih h
        simp
        omega

mutual

/-- parseContainers: a non-slice value yields no containers and an empty
parent-connector string, with no error. -/
def parseContainers (containerData : JValue) : Except String (List Container × String) :=
  match containerData with
  | .arr l => parseContainersLoop l ""
  | _ => .ok ([], "")
termination_by sizeOf containerData
decreasing_by
  all_goals simp_wf
  all_goals omega

/-- parseContainersLoop: the element loop of parseContainers.  The second
argument is the running `parentConnector` variable (the parent-connector value
of the last structured element processed so far).  The Go source type-asserts
`parent_connector` and its `value` without an ok check: a failure there is a
panic, modelled as an error.  Its own error return is always nil; the nested
recursive call's failures are panics, which unwind, hence propagate here. -/
def parseContainersLoop (elems : List JValue) (parentConnector : String) :
    Except String (List Container × String) :=
  match elems with
  | [] => .ok ([], parentConnector)
  | cv :: rest =>
      match cv with
      | .obj containerMap =>
          let description := RemoveHTMLTags (jStringD (jLookup containerMap "description"))
          let title := jStringD (jLookup containerMap "title")
          let creditPoints := StringToInt (jStringD (jLookup containerMap "credit_points"))
          match jLookup containerMap "parent_connector" with
          | some (.obj conn) =>
              match jString (jLookup conn "value") with
              | none => .error "panic: parent_connector value is not a string"
              | some pcValue =>
                  let academicItems :=
                    match jLookup containerMap "relationship" with
                    | some relRaw => parseItems relRaw
                    | none => []
                  match (match hnc : jLookup containerMap "container" with
                         | none => Except.ok (([] : List Container), "")
                         | some JValue.null => Except.ok (([] : List Container), "")
                         | some nv => parseContainers nv) with
                  | .error e => .error e
                  | .ok (nestedContainers, relationship) =>
                      let connector0 := if relationship == "" then "AND" else relationship
                      let connector1 :=
                        match nestedContainers with
                        | [] => connector0
                        | c0 :: _ =>
                            if c0.creditPointsRequired = creditPoints then "OR" else connector0
                      let connector2 :=
                        match academicItems with
                        | [] => connector1
                        | i0 :: _ =>
                            if i0.creditPoints = creditPoints then "OR" else connector1
                      let container :=
                        Container.mk title description creditPoints nestedContainers
                          academicItems connector2
                      match parseContainersLoop rest pcValue with
                      | .error e => .error e
                      | .ok (restContainers, finalConnector) =>
                          .ok (container :: restContainers, finalConnector)
          | _ => .error "panic: parent_connector is not a map of string to interface"
      | _ => parseContainersLoop rest parentConnector
termination_by sizeOf elems
decreasing_by
  all_goals simp_wf
  all_goals try (have hv := jLookup_sizeOf hnc)
  all_goals simp at *
  all_goals omega

end

/-- parsePart: the body of ParseCurriculum's part loop, producing `none` for a
skipped non-object element, and an error where the Go code would panic (the
`order` field is type-asserted to string without an ok check).  The
`totalCreditPoints` argument is the curriculum total used by the final credit
normalization. -/
def parsePart (totalCreditPoints : Int) (pv : JValue) : Except String (Option Part) :=
  match pv with
  | .obj partMap =>
      let description := RemoveHTMLTags (jStringD (jLookup partMap "description"))
      let title := jStringD (jLookup partMap "title")
      let creditPoints := StringToInt (jStringD (jLookup partMap "credit_points"))
      match jString (jLookup partMap "order") with
      | none => .error "panic: order is not a string"
      | some orderStr =>
          let order := StringToInt orderStr
          match (match jLookup partMap "container" with
                 | some containersRaw => parseContainers containersRaw
                 | none => Except.ok (([] : List Container), "")) with
          | .error e => .error e
          | .ok (containers, _) =>
              let connectorA :=
                match containers with
                | [] => "AND"
                | c0 :: _ => if c0.creditPointsRequired = creditPoints then "OR" else "AND"
              let itemsStep : List AcademicItem × String :=
                if containers.isEmpty then
                  match jLookup partMap "relationship" with
                  | some relRaw =>
                      let items := parseItems relRaw
                      let connectorB :=
                        match items with
                        | [] => "AND"
                        | i0 :: _ => if i0.creditPoints = creditPoints then "OR" else "AND"
                      (items, connectorB)
                  | none => ([], "AND")
                else ([], connectorA)
              let creditFinal := if creditPoints = totalCreditPoints then 0 else creditPoints
              .ok (some { title := title, description := description,
                          creditPointsRequired := creditFinal, containers := containers,
                          academicItems := itemsStep.1, order := order,
                          connector := itemsStep.2 })
  | _ => .ok none

/-- parsePartsLoop: ParseCurriculum's loop over the top-level part entries:
skipped entries contribute nothing, parsed parts are appended in order, and a
panic aborts the build. -/
def parsePartsLoop (totalCreditPoints : Int) : List JValue → Except String (List Part)
  | [] => .ok []
  | pv :: rest =>
      match parsePart totalCreditPoints pv with
      | .error e => .error e
      | .ok none => parsePartsLoop totalCreditPoints rest
      | .ok (some part) =>
          match parsePartsLoop totalCreditPoints rest with
          | .error e => .error e
          | .ok parts => .ok (part :: parts)

/-- ParseCurriculum from the common package: extract the curriculum structure
at its fixed path, require the total credit points to be a string and the
part list to be an array (the only non-panic error returns), then parse each
part. -/
def ParseCurriculum (data : List (String × JValue)) : Except String Curriculum :=
  let cs := getCurriculumStructure data
  match jString (jLookup cs "credit_points") with
  | none => .error "total credit points not found or not a string"
  | some totalCreditsStr =>
      let total := StringToInt totalCreditsStr
      match jArrOpt (jLookup cs "container") with
      | none => .error "parts container not found or not an array"
      | some partsData =>
          match parsePartsLoop total partsData with
          | .error e => .error e
          | .ok parts => .ok { totalCreditPoints := total, parts := parts }

/-- uncompletedCodes: codes of the direct units not in the completed set, in
container order — the prerequisite-mode mentionedUnits of the AND/OR logic. -/
def uncompletedCodes (c : CompressedContainer) (completed : List common.Unit) : List String :=
  (c.units.filter (fun u => !isUnitCompleted u completed)).map (fun u => u.unitCode)

/-- completedCodesIn: codes of the direct units found in the completed set, in
container order — the prohibition-mode mentionedUnits of the AND logic. -/
def completedCodesIn (c : CompressedContainer) (completed : List common.Unit) : List String :=
  (c.units.filter (fun u => isUnitCompleted u completed)).map (fun u => u.unitCode)

/-! ### Basic facts about the evaluator -/

theorem isUnitCompleted_iff (u : CompressedUnit) (completed : List common.Unit) :
    isUnitCompleted u completed = true ↔ ∃ cu ∈ completed, cu.code = u.unitCode := by
  simp [isUnitCompleted]

theorem uncompletedCodes_eq_nil_iff (c : CompressedContainer) (completed : List common.Unit) :
    uncompletedCodes c completed = [] ↔
      ∀ u ∈ c.units, ∃ cu ∈ completed, cu.code = u.unitCode := by
  simp [uncompletedCodes, List.filter_eq_nil_iff, isUnitCompleted_iff]

theorem completedCodesIn_eq_nil_iff (c : CompressedContainer) (completed : List common.Unit) :
    completedCodesIn c completed = [] ↔
      ∀ u ∈ c.units, ¬∃ cu ∈ completed, cu.code = u.unitCode := by
  simp [completedCodesIn, List.filter_eq_nil_iff, isUnitCompleted_iff]

/-- checkContainer can only succeed in two shapes: met with no messages, or
unmet with at least one message.  This is immediate from its final branch. -/
theorem checkContainer_ok_shape {cs : List CompressedContainer}
    {completed : List common.Unit} {p b : Bool} {m : List String}
    (h : checkContainer cs completed p = .ok (b, m)) :
    (b = true ∧ m = []) ∨ (b = false ∧ m ≠ []) := by
  unfold checkContainer at h
  split at h
  · have h' := Except.ok.inj h
    injection h' with h1 h2
    exact Or.inl ⟨h1.symm, h2.symm⟩
  · split at h
    · simp at h
    · split at h
      · have h' := Except.ok.inj h
        injection h' with h1 h2
        exact Or.inl ⟨h1.symm, h2.symm⟩
      · rename_i hu
        have h' := Except.ok.inj h
        injection h' with h1 h2
        refine Or.inr ⟨h1.symm, ?_⟩
        rw [← h2]
        simpa [List.isEmpty_iff] using hu

theorem subUnmetLoop_ok_all {cs : List CompressedContainer}
    {completed : List common.Unit} {p : Bool} {l : List String}
    (h : subUnmetLoop cs completed p = .ok l) :
    ∀ sub ∈ cs, ∃ r, checkContainer [sub] completed p = .ok r := by
  induction cs generalizing l with
  | nil => intro sub hs; cases hs
  | cons head tail ih =>
      unfold subUnmetLoop at h
      cases hc : checkContainer [head] completed p with
      | error e => rw [hc] at h; simp at h
      | ok r =>
          obtain ⟨met, messages⟩ := r
          rw [hc] at h
          cases ht : subUnmetLoop tail completed p with
          | error e => rw [ht] at h; simp at h
          | ok restMsgs =>
              rw [ht] at h
              intro sub hs
              rcases List.mem_cons.mp hs with rfl | hmem
              · exact ⟨(met, messages), hc⟩
              · exact ih ht sub hmem

theorem subUnmetLoop_nil_iff {cs : List CompressedContainer}
    {completed : List common.Unit} {p : Bool} {l : List String}
    (h : subUnmetLoop cs completed p = .ok l) :
    l = [] ↔ ∀ sub ∈ cs, checkContainer [sub] completed p = .ok (true, []) := by
  induction cs generalizing l with
  | nil =>
      unfold subUnmetLoop at h
      simp at h
      subst h
      simp
  | cons head tail ih =>
      unfold subUnmetLoop at h
      cases hc : checkContainer [head] completed p with
      | error e => rw [hc] at h; simp at h
      | ok r =>
          obtain ⟨met, messages⟩ := r
          rw [hc] at h
          cases ht : subUnmetLoop tail completed p with
          | error e => rw [ht] at h; simp at h
          | ok restMsgs =>
              rw [ht] at h
              simp at h
              subst h
              constructor
              · intro hl
                obtain ⟨h1, h2⟩ := List.append_eq_nil.mp hl
                intro sub hs
                rcases List.mem_cons.mp hs with rfl | hmem
                · cases met with
                  | true =>
                      rcases checkContainer_ok_shape hc with ⟨_, hm⟩ | ⟨hf, _⟩
                      · rw [hm] at hc; exact hc
                      · simp at hf
                  | false =>
                      rcases checkContainer_ok_shape hc with ⟨ht2, _⟩ | ⟨_, hm⟩
                      · simp at ht2
                      · simp at h1; exact absurd h1 hm
                · exact (ih ht).mp h2 sub hmem
              · intro hall
                have hh := hall head (List.mem_cons_self _ _)
                rw [hc] at hh
                have h' := Except.ok.inj hh
                injection h' with h1 h2
                have htail : restMsgs = [] :=
                  (ih ht).mpr (fun sub hs => hall sub (List.mem_cons_of_mem _ hs))
                simp [h1, htail]

theorem orFindMet_ok_true {cs : List CompressedContainer}
    {completed : List common.Unit} {p : Bool}
    (h : orFindMet cs completed p = .ok true) :
    ∃ sub ∈ cs, ∃ m, checkContainer [sub] completed p = .ok (true, m) := by
  induction cs with
  | nil => unfold orFindMet at h; simp at h
  | cons head tail ih =>
      unfold orFindMet at h
      cases hc : checkContainer [head] completed p with
      | error e => rw [hc] at h; simp at h
      | ok r =>
          obtain ⟨met, messages⟩ := r
          rw [hc] at h
          cases met with
          | true => exact ⟨head, List.mem_cons_self _ _, messages, hc⟩
          | false =>
              simp at h
              obtain ⟨sub, hs, m, hm⟩ := ih h
              exact ⟨sub, List.mem_cons_of_mem _ hs, m, hm⟩

theorem subUnmetLoop_ne_nil {cs : List CompressedContainer}
    {completed : List common.Unit} {p : Bool} {l : List String}
    (h : subUnmetLoop cs completed p = .ok l) (hne : l ≠ []) :
    ∃ sub ∈ cs, ∃ m, checkContainer [sub] completed p = .ok (false, m) := by
  by_contra hno
  push_neg at hno
  apply hne
  rw [subUnmetLoop_nil_iff h]
  intro sub hs
  obtain ⟨⟨met, m⟩, hr⟩ := subUnmetLoop_ok_all h sub hs
  cases met with
  | false => exact absurd hr (hno sub hs m)
  | true =>
      rcases checkContainer_ok_shape hr with ⟨_, hm⟩ | ⟨hf, _⟩
      · rw [hm] at hr; exact hr
      · simp at hf

theorem orFindMet_ok_false {cs : List CompressedContainer}
    {completed : List common.Unit} {p : Bool}
    (h : orFindMet cs completed p = .ok false) :
    ∀ sub ∈ cs, ∃ m, checkContainer [sub] completed p = .ok (false, m) := by
  induction cs with
  | nil => intro sub hs; cases hs
  | cons head tail ih =>
      unfold orFindMet at h
      cases hc : checkContainer [head] completed p with
      | error e => rw [hc] at h; simp at h
      | ok r =>
          obtain ⟨met, messages⟩ := r
          rw [hc] at h
          cases met with
          | true => simp at h
          | false =>
              simp at h
              intro sub hs
              rcases List.mem_cons.mp hs with rfl | hmem
              · exact ⟨messages, hc⟩
              · exact ih h sub hmem

/-! ### Claim theorems -/

/-- C1: an AND container evaluated in prerequisite mode is satisfied iff every
direct unit's code is in the completed set (exact string equality) and every
nested container is independently satisfied; when unsatisfied, the messages
are the unmet nested containers' messages followed by the single message
"Requires: code1 and code2 and ..." listing the uncompleted direct units in
container order, joined by the literal " and ". -/
theorem c1_checkAndLogic_prereq (c : CompressedContainer) (completed : List common.Unit)
    (b : Bool) (msgs : List String)
    (h : checkAndLogic c completed false = .ok (b, msgs)) :
    (b = true ↔ ((∀ u ∈ c.units, ∃ cu ∈ completed, cu.code = u.unitCode) ∧
      (∀ sub ∈ c.containers, checkContainer [sub] completed false = .ok (true, [])))) ∧
    (b = true → msgs = []) ∧
    (b = false → ∃ subUnmet, subUnmetLoop c.containers completed false = .ok subUnmet ∧
      msgs = subUnmet ++
        (if (uncompletedCodes c completed).isEmpty then []
         else ["Requires: " ++ joinSep " and " (uncompletedCodes c completed)])) := by
  unfold checkAndLogic at h
  split at h
  case isTrue hempty =>
      have h' := Except.ok.inj h
      injection h' with h1 h2
      subst h1
      subst h2
      obtain ⟨hu, hc⟩ : c.units = [] ∧ c.containers = [] := by
        simpa [Bool.and_eq_true, List.isEmpty_iff] using hempty
      refine ⟨?_, fun _ => rfl, ?_⟩
      · exact iff_of_true rfl (by simp [hu, hc])
      · intro hb
        simp at hb
  case isFalse hempty =>
      rw [if_pos (show (!false) = true from rfl)] at h
      cases hsl : subUnmetLoop c.containers completed false with
      | error e => rw [hsl] at h; simp at h
      | ok subUnmet =>
          rw [hsl] at h
          simp only [] at h
          have hfold : List.map (fun u => u.unitCode)
              (List.filter (fun u => !isUnitCompleted u completed) c.units) =
                uncompletedCodes c completed := rfl
          rw [hfold] at h
          set mm := (if (uncompletedCodes c completed).isEmpty then ([] : List String)
            else ["Requires: " ++ joinSep " and " (uncompletedCodes c completed)]) with hmm
          split at h
          case isTrue hnil =>
              have h' := Except.ok.inj h
              injection h' with h1 h2
              subst h1
              subst h2
              obtain ⟨hsn, hin⟩ : subUnmet = [] ∧ mm = [] := by
                simpa [List.isEmpty_iff, List.append_eq_nil] using hnil
              have huc : uncompletedCodes c completed = [] := by
                by_cases he : (uncompletedCodes c completed).isEmpty
                · simpa [List.isEmpty_iff] using he
                · rw [hmm, if_neg he] at hin
                  simp at hin
              refine ⟨?_, fun _ => rfl, ?_⟩
              · exact iff_of_true rfl
                  ⟨(uncompletedCodes_eq_nil_iff c completed).mp huc,
                   (subUnmetLoop_nil_iff hsl).mp hsn⟩
              · intro hb
                simp at hb
          case isFalse hnil =>
              have h' := Except.ok.inj h
              injection h' with h1 h2
              subst h1
              subst h2
              have hnot : ¬((∀ u ∈ c.units, ∃ cu ∈ completed, cu.code = u.unitCode) ∧
                  (∀ sub ∈ c.containers,
                    checkContainer [sub] completed false = .ok (true, []))) := by
                intro ⟨hall, hsubs⟩
                apply hnil
                have huc : uncompletedCodes c completed = [] :=
                  (uncompletedCodes_eq_nil_iff c completed).mpr hall
                have hsn : subUnmet = [] := (subUnmetLoop_nil_iff hsl).mpr hsubs
                simp [hsn, hmm, huc]
              refine ⟨iff_of_false (by simp) hnot, ?_, ?_⟩
              · intro hb
                simp at hb
              · intro _
                exact ⟨subUnmet, rfl, rfl⟩

/-- C2: an OR container with at least one direct unit or nested container,
evaluated in prerequisite mode, is satisfied iff some direct unit is in the
completed set or some nested container is independently satisfied; a
satisfied result carries no messages (short-circuit), and an unsatisfied one
renders the uncompleted direct units as the single message
"Requires one of: code1 or code2 or ..." joined by the literal " or ",
followed by the nested containers' collected messages. -/
theorem c2_checkOrLogic_prereq (c : CompressedContainer) (completed : List common.Unit)
    (b : Bool) (msgs : List String)
    (hne : ¬(c.units = [] ∧ c.containers = []))
    (h : checkOrLogic c completed false = .ok (b, msgs)) :
    (b = true ↔ ((∃ u ∈ c.units, ∃ cu ∈ completed, cu.code = u.unitCode) ∨
      (∃ sub ∈ c.containers, checkContainer [sub] completed false = .ok (true, [])))) ∧
    (b = true → msgs = []) ∧
    (b = false → msgs =
      (if (uncompletedCodes c completed).isEmpty then []
       else ["Requires one of: " ++ joinSep " or " (uncompletedCodes c completed)]) ++
        collectSubMessages c.containers completed false) := by
  unfold checkOrLogic at h
  split at h
  case isTrue hempty =>
      exact absurd (by simpa [Bool.and_eq_true, List.isEmpty_iff] using hempty) hne
  case isFalse hempty =>
      rw [if_pos (show (!false) = true from rfl)] at h
      split at h
      case isTrue hany =>
          have h' := Except.ok.inj h
          injection h' with h1 h2
          subst h1
          subst h2
          refine ⟨?_, fun _ => rfl, ?_⟩
          · refine iff_of_true rfl (Or.inl ?_)
            obtain ⟨u, hu, hcomp⟩ := List.any_eq_true.mp hany
            exact ⟨u, hu, (isUnitCompleted_iff u completed).mp hcomp⟩
          · intro hb
            simp at hb
      case isFalse hany =>
          cases hfm : orFindMet c.containers completed false with
          | error e => rw [hfm] at h; simp at h
          | ok found =>
              rw [hfm] at h
              cases found with
              | true =>
                  simp only [] at h
                  have h' := Except.ok.inj h
                  injection h' with h1 h2
                  subst h1
                  subst h2
                  refine ⟨?_, fun _ => rfl, ?_⟩
                  · refine iff_of_true rfl (Or.inr ?_)
                    obtain ⟨sub, hs, m, hm⟩ := orFindMet_ok_true hfm
                    rcases checkContainer_ok_shape hm with ⟨_, hmm2⟩ | ⟨hf, _⟩
                    · rw [hmm2] at hm; exact ⟨sub, hs, hm⟩
                    · simp at hf
                  · intro hb
                    simp at hb
              | false =>
                  simp only [] at h
                  have hfold : List.map (fun u => u.unitCode)
                      (List.filter (fun u => !isUnitCompleted u completed) c.units) =
                        uncompletedCodes c completed := rfl
                  rw [hfold] at h
                  set mm := (if (uncompletedCodes c completed).isEmpty then ([] : List String)
                    else ["Requires one of: " ++
                      joinSep " or " (uncompletedCodes c completed)]) with hmm
                  have hnot : ¬((∃ u ∈ c.units, ∃ cu ∈ completed, cu.code = u.unitCode) ∨
                      (∃ sub ∈ c.containers,
                        checkContainer [sub] completed false = .ok (true, []))) := by
                    rintro (⟨u, hu, hcomp⟩ | ⟨sub, hs, hm⟩)
                    · exact hany (List.any_eq_true.mpr
                        ⟨u, hu, (isUnitCompleted_iff u completed).mpr hcomp⟩)
                    · obtain ⟨m, hm2⟩ := orFindMet_ok_false hfm sub hs
                      rw [hm] at hm2
                      have h3 := Except.ok.inj hm2
                      injection h3 with hx hy
                      simp at hx
                  split at h
                  case isTrue hnil =>
                      have h' := Except.ok.inj h
                      injection h' with h1 h2
                      subst h1
                      subst h2
                      obtain ⟨hm1, hm2⟩ : mm = [] ∧
                          collectSubMessages c.containers completed false = [] := by
                        simpa [List.isEmpty_iff, List.append_eq_nil] using hnil
                      refine ⟨iff_of_false (by simp) hnot, ?_, ?_⟩
                      · intro hb
                        simp at hb
                      · intro _
                        simp [hm1, hm2]
                  case isFalse hnil =>
                      have h' := Except.ok.inj h
                      injection h' with h1 h2
                      subst h1
                      subst h2
                      refine ⟨iff_of_false (by simp) hnot, ?_, fun _ => rfl⟩
                      intro hb
                      simp at hb

/-- C3: an AND container evaluated in prohibition mode is violated iff some
completed unit appears among its direct units (any one suffices, not only the
whole group) or some nested container is violated under the same prohibition
semantics; when violated, the messages are the nested containers' messages
followed by the single message "Prohibited by: code1 and code2 and ..."
listing the completed direct units in container order. -/
theorem c3_checkAndLogic_prohibition (c : CompressedContainer) (completed : List common.Unit)
    (b : Bool) (msgs : List String)
    (h : checkAndLogic c completed true = .ok (b, msgs)) :
    (b = false ↔ ((∃ u ∈ c.units, ∃ cu ∈ completed, cu.code = u.unitCode) ∨
      (∃ sub ∈ c.containers, ∃ m,
        checkContainer [sub] completed true = .ok (false, m)))) ∧
    (b = true → msgs = []) ∧
    (b = false → ∃ subUnmet, subUnmetLoop c.containers completed true = .ok subUnmet ∧
      msgs = subUnmet ++
        (if (completedCodesIn c completed).isEmpty then []
         else ["Prohibited by: " ++ joinSep " and " (completedCodesIn c completed)])) := by
  unfold checkAndLogic at h
  split at h
  case isTrue hempty =>
      have h' := Except.ok.inj h
      injection h' with h1 h2
      subst h1
      subst h2
      obtain ⟨hu, hc⟩ : c.units = [] ∧ c.containers = [] := by
        simpa [Bool.and_eq_true, List.isEmpty_iff] using hempty
      refine ⟨?_, fun _ => rfl, ?_⟩
      · refine iff_of_false (by simp) ?_
        rintro (⟨u, hu2, _⟩ | ⟨sub, hs, _⟩)
        · rw [hu] at hu2; cases hu2
        · rw [hc] at hs; cases hs
      · intro hb
        simp at hb
  case isFalse hempty =>
      rw [if_neg (show ¬((!true) = true) from by simp)] at h
      cases hsl : subUnmetLoop c.containers completed true with
      | error e => rw [hsl] at h; simp at h
      | ok subUnmet =>
          rw [hsl] at h
          simp only [] at h
          have hfold : List.map (fun u => u.unitCode)
              (List.filter (fun u => isUnitCompleted u completed) c.units) =
                completedCodesIn c completed := rfl
          rw [hfold] at h
          set mm := (if (completedCodesIn c completed).isEmpty then ([] : List String)
            else ["Prohibited by: " ++
              joinSep " and " (completedCodesIn c completed)]) with hmm
          split at h
          case isTrue hnil =>
              have h' := Except.ok.inj h
              injection h' with h1 h2
              subst h1
              subst h2
              obtain ⟨hsn, hin⟩ : subUnmet = [] ∧ mm = [] := by
                simpa [List.isEmpty_iff, List.append_eq_nil] using hnil
              have huc : completedCodesIn c completed = [] := by
                by_cases he : (completedCodesIn c completed).isEmpty
                · simpa [List.isEmpty_iff] using he
                · rw [hmm, if_neg he] at hin
                  simp at hin
              refine ⟨?_, fun _ => rfl, ?_⟩
              · refine iff_of_false (by simp) ?_
                rintro (⟨u, hu, hcomp⟩ | ⟨sub, hs, m, hm⟩)
                · exact (completedCodesIn_eq_nil_iff c completed).mp huc u hu hcomp
                · have hmet := (subUnmetLoop_nil_iff hsl).mp hsn sub hs
                  rw [hm] at hmet
                  have h3 := Except.ok.inj hmet
                  injection h3 with hx hy
                  simp at hx
              · intro hb
                simp at hb
          case isFalse hnil =>
              have h' := Except.ok.inj h
              injection h' with h1 h2
              subst h1
              subst h2
              refine ⟨?_, ?_, ?_⟩
              · refine iff_of_true rfl ?_
                have hor : subUnmet ≠ [] ∨ completedCodesIn c completed ≠ [] := by
                  by_contra hboth
                  push_neg at hboth
                  apply hnil
                  simp [hboth.1, hmm, hboth.2]
                rcases hor with hsn | hcc
                · obtain ⟨sub, hs, m, hm⟩ := subUnmetLoop_ne_nil hsl hsn
                  exact Or.inr ⟨sub, hs, m, hm⟩
                · left
                  obtain ⟨u, hu, hcomp⟩ : ∃ u ∈ c.units,
                      isUnitCompleted u completed = true := by
                    by_contra hnone
                    push_neg at hnone
                    apply hcc
                    rw [completedCodesIn_eq_nil_iff]
                    intro u hu hex
                    exact absurd ((isUnitCompleted_iff u completed).mpr hex)
                      (by simpa using hnone u hu)
                  exact ⟨u, hu, (isUnitCompleted_iff u completed).mp hcomp⟩
              · intro hb
                simp at hb
              · intro _
                exact ⟨subUnmet, rfl, rfl⟩



/-- checkAndLogic can return an empty message list only together with a `true`
(met / non-violated) result, in both modes: its false branch always carries
the non-empty accumulated messages. -/
theorem checkAndLogic_ok_nil {c : CompressedContainer} {completed : List common.Unit}
    {p b : Bool} (h : checkAndLogic c completed p = .ok (b, [])) : b = true := by
  unfold checkAndLogic at h
  split at h
  · have h' := Except.ok.inj h
    injection h' with h1 h2
    exact h1.symm
  · split at h
    all_goals
      cases hsl : subUnmetLoop c.containers completed p with
      | error e => rw [hsl] at h; simp at h
      | ok subUnmet =>
          rw [hsl] at h
          simp only [] at h
          split at h
          all_goals split at h
          all_goals
            first
              | (have h' := Except.ok.inj h
                 injection h' with h1 h2
                 exact h1.symm)
              | (rename_i hnil
                 have h' := Except.ok.inj h
                 injection h' with h1 h2
                 first
                   | exact absurd (by rw [h2]; rfl) hnil
                   | exact absurd (by rw [h2]) hnil
                   | exact absurd h2 (by simp))

/-- checkOrLogic in prohibition mode can return an empty message list only
with a `true` (non-violated) result: its fall-through returns the prohibition
flag itself, which is true in this mode. -/
theorem checkOrLogic_prohib_ok_nil {c : CompressedContainer}
    {completed : List common.Unit} {b : Bool}
    (h : checkOrLogic c completed true = .ok (b, [])) : b = true := by
  unfold checkOrLogic at h
  split at h
  · have h' := Except.ok.inj h
    injection h' with h1 h2
    exact h1.symm
  · rw [if_neg (show ¬((!true) = true) from by simp)] at h
    cases hpm : orProhibMentions c.containers completed true with
    | error e => rw [hpm] at h; simp at h
    | ok subMentions =>
        rw [hpm] at h
        simp only [] at h
        split at h
        all_goals split at h
        all_goals
          first
            | (have h' := Except.ok.inj h
               injection h' with h1 h2
               exact h1.symm)
            | (rename_i hnil
               have h' := Except.ok.inj h
               injection h' with h1 h2
               first
                 | exact absurd (by rw [h2]; rfl) hnil
                 | exact absurd (by rw [h2]) hnil
                 | exact absurd h2 (by simp))

/-- C4 counterexample: an AND container with no direct units and one empty
nested AND container registers no completed-unit match, no violation and no
message (the completed set is empty, so nothing can match anywhere), yet
prerequisite-mode evaluation returns satisfied (true) rather than the
prohibition flag (false), refuting the claim as stated. -/
theorem c4_counterexample :
    checkContainerLogic (.mk "AND" [] [.mk "AND" [] []]) [] false = .ok (true, []) ∧
    (CompressedContainer.mk "AND" [] [.mk "AND" [] []]).containers ≠ [] := by
  constructor
  · simp [checkContainerLogic, checkAndLogic, subUnmetLoop, checkContainer,
      checkContainerAux, CompressedContainer.units, CompressedContainer.containers,
      CompressedContainer.relationship]
  · simp [CompressedContainer.containers]

/-- C4 amended: the no-signal default equals the prohibition flag once a
nested container that independently evaluates as met is also counted as a
signal in prerequisite mode.  If evaluation succeeds with an empty message
list, the container has at least one direct unit or nested container, no
direct unit is in the completed set, and (in prerequisite mode) no nested
container evaluates as met, then the boolean result equals the prohibition
flag: false (not satisfied) for prerequisites, true (not violated) for
prohibitions. -/
theorem c4_amended (c : CompressedContainer) (completed : List common.Unit)
    (p b : Bool) (msgs : List String)
    (h : checkContainerLogic c completed p = .ok (b, msgs))
    (hne : ¬(c.units = [] ∧ c.containers = []))
    (hmsgs : msgs = [])
    (hunits : ∀ u ∈ c.units, isUnitCompleted u completed = false)
    (hsubs : p = false → ∀ sub ∈ c.containers, ∀ m,
      checkContainer [sub] completed false ≠ .ok (true, m)) :
    b = p := by
  subst hmsgs
  unfold checkContainerLogic at h
  split at h
  · cases p with
    | true => exact checkAndLogic_ok_nil h
    | false =>
        exfalso
        unfold checkAndLogic at h
        split at h
        case isTrue hempty =>
            exact hne (by simpa [Bool.and_eq_true, List.isEmpty_iff] using hempty)
        case isFalse hempty =>
            rw [if_pos (show (!false) = true from rfl)] at h
            cases hsl : subUnmetLoop c.containers completed false with
            | error e => rw [hsl] at h; simp at h
            | ok subUnmet =>
                rw [hsl] at h
                simp only [] at h
                have hfold : List.map (fun u => u.unitCode)
                    (List.filter (fun u => !isUnitCompleted u completed) c.units) =
                      uncompletedCodes c completed := rfl
                rw [hfold] at h
                set mm := (if (uncompletedCodes c completed).isEmpty then ([] : List String)
                  else ["Requires: " ++
                    joinSep " and " (uncompletedCodes c completed)]) with hmm
                split at h
                case isTrue hnil =>
                    obtain ⟨hsn, hin⟩ : subUnmet = [] ∧ mm = [] := by
                      simpa [List.isEmpty_iff, List.append_eq_nil] using hnil
                    have huc : uncompletedCodes c completed = [] := by
                      by_cases he : (uncompletedCodes c completed).isEmpty
                      · simpa [List.isEmpty_iff] using he
                      · rw [hmm, if_neg he] at hin
                        simp at hin
                    have hunil : c.units = [] := by
                      cases hu : c.units with
                      | nil => rfl
                      | cons u us =>
                          have hmem : u ∈ c.units := by
                            rw [hu]; exact List.mem_cons_self _ _
                          have hfalse := hunits u hmem
                          have hmm2 : u.unitCode ∈ uncompletedCodes c completed := by
                            unfold uncompletedCodes
                            apply List.mem_map_of_mem
                            rw [List.mem_filter]
                            exact ⟨hmem, by simp [hfalse]⟩
                          rw [huc] at hmm2
                          cases hmm2
                    cases hc : c.containers with
                    | nil => exact hne ⟨hunil, hc⟩
                    | cons s ss =>
                        have hs : s ∈ c.containers := by
                          rw [hc]; exact List.mem_cons_self _ _
                        have hmet := (subUnmetLoop_nil_iff hsl).mp hsn s hs
                        exact hsubs rfl s hs [] hmet
                case isFalse hnil =>
                    have h' := Except.ok.inj h
                    injection h' with h1 h2
                    exact absurd (by simp [h2]) hnil
  · split at h
    · cases p with
      | true => exact checkOrLogic_prohib_ok_nil h
      | false =>
          unfold checkOrLogic at h
          split at h
          case isTrue hempty =>
              exact absurd
                (by simpa [Bool.and_eq_true, List.isEmpty_iff] using hempty) hne
          case isFalse hempty =>
              rw [if_pos (show (!false) = true from rfl)] at h
              split at h
              case isTrue hany =>
                  exfalso
                  obtain ⟨u, hu, hcomp⟩ := List.any_eq_true.mp hany
                  rw [hunits u hu] at hcomp
                  simp at hcomp
              case isFalse hany =>
                  cases hfm : orFindMet c.containers completed false with
                  | error e => rw [hfm] at h; simp at h
                  | ok found =>
                      rw [hfm] at h
                      cases found with
                      | true =>
                          exfalso
                          obtain ⟨sub, hs, m, hm⟩ := orFindMet_ok_true hfm
                          exact hsubs rfl sub hs m hm
                      | false =>
                          simp only [] at h
                          split at h
                          all_goals split at h
                          all_goals
                            (have h' := Except.ok.inj h
                             injection h' with h1 h2
                             exact h1.symm)
    · simp at h

/-- C4 witness: an OR prohibition container with one direct unit, none
completed — nothing registers, and the amended theorem yields the prohibition
flag (true, non-violated). -/
theorem c4_witness :
    checkContainerLogic (.mk "OR" [⟨"FIT9999", "9999"⟩] []) [] true = .ok (true, []) ∧
    (true : Bool) = true := by
  have heval : checkContainerLogic (.mk "OR" [⟨"FIT9999", "9999"⟩] []) [] true
      = .ok (true, []) := by
    simp [checkContainerLogic, checkOrLogic, orProhibMentions, collectSubMessages,
      isUnitCompleted, CompressedContainer.relationship, CompressedContainer.units,
      CompressedContainer.containers]
  refine ⟨heval, ?_⟩
  exact c4_amended (.mk "OR" [⟨"FIT9999", "9999"⟩] []) [] true true [] heval
    (by simp [CompressedContainer.units, CompressedContainer.containers])
    rfl
    (by decide)
    (by intro hpf; simp at hpf)

/-- C8 counterexample: the claim quantifies over all Relationship values, but
an empty container whose Relationship is neither "AND" nor "OR" does not
evaluate as satisfied — evaluation fails with an error. -/
theorem c8_counterexample :
    checkContainerLogic (.mk "XYZ" [] []) [] false =
      .error ("unknown relationship type: " ++ "XYZ") := by
  simp [checkContainerLogic, CompressedContainer.relationship]

/-- C8 amended: for every container with empty Units and empty Containers
whose Relationship is "AND" or "OR", evaluation returns satisfied /
non-violated with no messages in both modes, for every completed set. -/
theorem c8_amended (rel : String) (completed : List common.Unit) (p : Bool)
    (hrel : rel = "AND" ∨ rel = "OR") :
    checkContainerLogic (.mk rel [] []) completed p = .ok (true, []) := by
  rcases hrel with rfl | rfl
  · simp [checkContainerLogic, checkAndLogic, CompressedContainer.relationship,
      CompressedContainer.units, CompressedContainer.containers]
  · simp [checkContainerLogic, checkOrLogic, CompressedContainer.relationship,
      CompressedContainer.units, CompressedContainer.containers]

/-- C8 witness: the amended theorem applied at Relationship "AND" in
prohibition mode with a non-empty completed set, and at "OR" in prerequisite
mode with the empty completed set. -/
theorem c8_witness :
    checkContainerLogic (.mk "AND" [] []) [⟨"FIT1001", "Unit", 6, "", ""⟩] true
      = .ok (true, []) ∧
    checkContainerLogic (.mk "OR" [] []) [] false = .ok (true, []) := by
  constructor
  · exact c8_amended "AND" [⟨"FIT1001", "Unit", 6, "", ""⟩] true (Or.inl rfl)
  · exact c8_amended "OR" [] false (Or.inr rfl)

/-- C10: CheckRequisites always returns a boolean consistent with its message
list: every successful result is either (true, no messages) or (false, at
least one message). -/
theorem c10_checkRequisites_consistent (unitData : UnitData)
    (completed : List common.Unit) (b : Bool) (msgs : List String)
    (h : CheckRequisites unitData completed = .ok (b, msgs)) :
    (b = true ∧ msgs = []) ∨ (b = false ∧ msgs ≠ []) := by
  unfold CheckRequisites at h
  split at h
  · have h' := Except.ok.inj h
    injection h' with h1 h2
    exact Or.inl ⟨h1.symm, h2.symm⟩
  · cases hl : checkRequisitesLoop unitData.requisites completed with
    | error e => rw [hl] at h; simp at h
    | ok unmet =>
        rw [hl] at h
        simp only [] at h
        split at h
        case isTrue hu =>
            have h' := Except.ok.inj h
            injection h' with h1 h2
            exact Or.inl ⟨h1.symm, h2.symm⟩
        case isFalse hu =>
            have h' := Except.ok.inj h
            injection h' with h1 h2
            refine Or.inr ⟨h1.symm, ?_⟩
            rw [← h2]
            simpa [List.isEmpty_iff] using hu

/-- C10 witness: a unit with one Prerequisite requisite whose container list
is empty: the checker returns (true, no messages), the first arm of the
theorem's dichotomy. -/
theorem c10_witness :
    CheckRequisites ⟨[⟨"Prerequisite", []⟩]⟩ [] = .ok (true, []) ∧
    ((true = true ∧ ([] : List String) = []) ∨
     (true = false ∧ ([] : List String) ≠ [])) := by
  have heval : CheckRequisites ⟨[⟨"Prerequisite", []⟩]⟩ [] = .ok (true, []) := by
    simp [CheckRequisites, checkRequisitesLoop, checkContainer]
  exact ⟨heval, c10_checkRequisites_consistent _ _ _ _ heval⟩


/-- C1 witness: scenario 2 — requisite AND([FIT1045, FIT2004]) with completed
set [FIT1045] is unsatisfied with messages ["Requires: FIT2004"], and the
theorem's satisfaction criterion, instantiated there, confirms the false
verdict. -/
theorem c1_witness :
    checkAndLogic (.mk "AND" [⟨"FIT1045", "1045"⟩, ⟨"FIT2004", "2004"⟩] [])
      [⟨"FIT1045", "Algorithms", 6, "", ""⟩] false =
      .ok (false, ["Requires: FIT2004"]) ∧
    ((false = true) ↔
      ((∀ u ∈ (CompressedContainer.mk "AND"
          [⟨"FIT1045", "1045"⟩, ⟨"FIT2004", "2004"⟩] []).units,
        ∃ cu ∈ [(⟨"FIT1045", "Algorithms", 6, "", ""⟩ : common.Unit)],
          cu.code = u.unitCode) ∧
       (∀ sub ∈ (CompressedContainer.mk "AND"
          [⟨"FIT1045", "1045"⟩, ⟨"FIT2004", "2004"⟩] []).containers,
        checkContainer [sub] [⟨"FIT1045", "Algorithms", 6, "", ""⟩] false =
          .ok (true, [])))) := by
  have heval : checkAndLogic (.mk "AND" [⟨"FIT1045", "1045"⟩, ⟨"FIT2004", "2004"⟩] [])
      [⟨"FIT1045", "Algorithms", 6, "", ""⟩] false =
        .ok (false, ["Requires: FIT2004"]) := by
    simp [checkAndLogic, subUnmetLoop, isUnitCompleted, joinSep,
      CompressedContainer.units, CompressedContainer.containers]
  exact ⟨heval, (c1_checkAndLogic_prereq _ _ _ _ heval).1⟩

/-- C2 witness: scenario 3 — requisite OR([FIT1006, ETC1010, STA1010]) with an
empty completed set is unsatisfied with the single message
"Requires one of: FIT1006 or ETC1010 or STA1010", and the theorem's
satisfaction criterion, instantiated there, confirms the false verdict. -/
theorem c2_witness :
    checkOrLogic
      (.mk "OR" [⟨"FIT1006", "1006"⟩, ⟨"ETC1010", "1010"⟩, ⟨"STA1010", "1010"⟩] [])
      [] false = .ok (false, ["Requires one of: FIT1006 or ETC1010 or STA1010"]) ∧
    ((false = true) ↔
      ((∃ u ∈ (CompressedContainer.mk "OR"
          [⟨"FIT1006", "1006"⟩, ⟨"ETC1010", "1010"⟩, ⟨"STA1010", "1010"⟩] []).units,
        ∃ cu ∈ ([] : List common.Unit), cu.code = u.unitCode) ∨
       (∃ sub ∈ (CompressedContainer.mk "OR"
          [⟨"FIT1006", "1006"⟩, ⟨"ETC1010", "1010"⟩, ⟨"STA1010", "1010"⟩] []).containers,
        checkContainer [sub] [] false = .ok (true, [])))) := by
  have heval : checkOrLogic
      (.mk "OR" [⟨"FIT1006", "1006"⟩, ⟨"ETC1010", "1010"⟩, ⟨"STA1010", "1010"⟩] [])
      [] false = .ok (false, ["Requires one of: FIT1006 or ETC1010 or STA1010"]) := by
    simp [checkOrLogic, orFindMet, collectSubMessages, isUnitCompleted, joinSep,
      CompressedContainer.units, CompressedContainer.containers]
  exact ⟨heval, (c2_checkOrLogic_prereq _ _ _ _
    (by simp [CompressedContainer.units, CompressedContainer.containers]) heval).1⟩

/-- C3 witness: scenario 4 — prohibition AND([FIT1008]) with completed set
[FIT1008] is violated with messages ["Prohibited by: FIT1008"], and the
theorem's violation criterion, instantiated there, confirms it. -/
theorem c3_witness :
    checkAndLogic (.mk "AND" [⟨"FIT1008", "1008"⟩] [])
      [⟨"FIT1008", "Data structures", 6, "", ""⟩] true =
      .ok (false, ["Prohibited by: FIT1008"]) ∧
    ((false = false) ↔
      ((∃ u ∈ (CompressedContainer.mk "AND" [⟨"FIT1008", "1008"⟩] []).units,
        ∃ cu ∈ [(⟨"FIT1008", "Data structures", 6, "", ""⟩ : common.Unit)],
          cu.code = u.unitCode) ∨
       (∃ sub ∈ (CompressedContainer.mk "AND" [⟨"FIT1008", "1008"⟩] []).containers,
        ∃ m, checkContainer [sub] [⟨"FIT1008", "Data structures", 6, "", ""⟩] true =
          .ok (false, m)))) := by
  have heval : checkAndLogic (.mk "AND" [⟨"FIT1008", "1008"⟩] [])
      [⟨"FIT1008", "Data structures", 6, "", ""⟩] true =
        .ok (false, ["Prohibited by: FIT1008"]) := by
    simp [checkAndLogic, subUnmetLoop, isUnitCompleted, joinSep,
      CompressedContainer.units, CompressedContainer.containers]
  exact ⟨heval, (c3_checkAndLogic_prohibition _ _ _ _ heval).1⟩


/-! ### Facts about the curriculum builder -/

theorem parsePartsLoop_mem {total : Int} {l : List JValue} {parts : List Part}
    (h : parsePartsLoop total l = .ok parts) :
    ∀ p ∈ parts, ∃ pv ∈ l, parsePart total pv = .ok (some p) := by
  induction l generalizing parts with
  | nil =>
      unfold parsePartsLoop at h
      simp at h
      subst h
      intro p hp
      cases hp
  | cons pv rest ih =>
      unfold parsePartsLoop at h
      cases hp : parsePart total pv with
      | error e => rw [hp] at h; simp at h
      | ok op =>
          rw [hp] at h
          cases op with
          | none =>
              simp only [] at h
              intro p hmem
              obtain ⟨pv2, hpv2, hparse⟩ := ih h p hmem
              exact ⟨pv2, List.mem_cons_of_mem _ hpv2, hparse⟩
          | some part =>
              simp only [] at h
              cases hrest : parsePartsLoop total rest with
              | error e => rw [hrest] at h; simp at h
              | ok parts2 =>
                  rw [hrest] at h
                  simp at h
                  subst h
                  intro p hmem
                  rcases List.mem_cons.mp hmem with rfl | hmem2
                  · exact ⟨pv, List.mem_cons_self _ _, hp⟩
                  · obtain ⟨pv2, hpv2, hparse⟩ := ih hrest p hmem2
                    exact ⟨pv2, List.mem_cons_of_mem _ hpv2, hparse⟩

theorem parsePart_obj {total : Int} {pv : JValue} {part : Part}
    (h : parsePart total pv = .ok (some part)) : ∃ m, pv = .obj m := by
  cases pv with
  | obj m => exact ⟨m, rfl⟩
  | s s1 => simp [parsePart] at h
  | arr l => simp [parsePart] at h
  | null => simp [parsePart] at h

/-- parsePart_fields: a successfully parsed Part's credit points are the
parsed value normalized against the curriculum total, its Connector is always
"AND" or "OR", and it is "OR" exactly when the first container's required
credit points — or, when there are no containers, the first academic item's
credit points — equal the part's parsed credit-points value. -/
theorem parsePart_fields {total : Int} {m : List (String × JValue)} {part : Part}
    (h : parsePart total (.obj m) = .ok (some part)) :
    part.creditPointsRequired =
      (if StringToInt (jStringD (jLookup m "credit_points")) = total then 0
       else StringToInt (jStringD (jLookup m "credit_points"))) ∧
    (part.connector = "AND" ∨ part.connector = "OR") ∧
    (part.connector = "OR" ↔
      ((∃ c0 cs, part.containers = c0 :: cs ∧
         c0.creditPointsRequired = StringToInt (jStringD (jLookup m "credit_points"))) ∨
       (part.containers = [] ∧ ∃ i0 is2, part.academicItems = i0 :: is2 ∧
         i0.creditPoints = StringToInt (jStringD (jLookup m "credit_points"))))) := by
  unfold parsePart at h
  simp only [] at h
  cases ho : jString (jLookup m "order") with
  | none => rw [ho] at h; simp at h
  | some orderStr =>
      rw [ho] at h
      simp only [] at h
      cases hc : (match jLookup m "container" with
                  | some containersRaw => parseContainers containersRaw
                  | none => Except.ok (([] : List Container), "")) with
      | error e => rw [hc] at h; simp at h
      | ok pr =>
          obtain ⟨containers, conn⟩ := pr
          rw [hc] at h
          simp only [] at h
          have h' := Option.some.inj (Except.ok.inj h)
          subst h'
          cases hcont : containers with
          | cons c0 cs =>
              constructor
              · simp
              · by_cases hcp : c0.creditPointsRequired =
                    StringToInt (jStringD (jLookup m "credit_points"))
                · constructor
                  · right
                    simp [hcont, hcp]
                  · simp [hcont, hcp]
                · constructor
                  · left
                    simp [hcont, hcp]
                  · simp [hcont, hcp]
                    all_goals
                      (intro c1 cs1 hcc
                       rw [hcc.1] at hcp
                       exact fun hq => absurd hq hcp)
          | nil =>
              refine ⟨by simp, ?_⟩
              cases hrel : jLookup m "relationship" with
              | none => simp [hcont, hrel]
              | some relRaw =>
                  cases hitems : parseItems relRaw with
                  | nil => simp [hcont, hrel, hitems]
                  | cons i0 is2 =>
                      by_cases hip : i0.creditPoints =
                          StringToInt (jStringD (jLookup m "credit_points"))
                      · constructor
                        · right
                          simp [hcont, hrel, hitems, hip]
                        · simp [hcont, hrel, hitems, hip]
                      · constructor
                        · left
                          simp [hcont, hrel, hitems, hip]
                        · simp [hcont, hrel, hitems, hip]
                          all_goals
                            (intro i1 is3 hii
                             rw [hii.1] at hip
                             exact fun hq => absurd hq hip)


/-- C9: every Part of a Curriculum produced by ParseCurriculum arises from
parsePart applied to the curriculum total, and whenever the part's parsed
required-credit-points value equals the curriculum's total credit points, the
emitted Part's CreditPointsRequired is reset to zero. -/
theorem c9_credit_normalization (data : List (String × JValue)) (curr : Curriculum)
    (h : ParseCurriculum data = .ok curr) :
    ∀ p ∈ curr.parts, ∃ m, parsePart curr.totalCreditPoints (.obj m) = .ok (some p) ∧
      (StringToInt (jStringD (jLookup m "credit_points")) = curr.totalCreditPoints →
        p.creditPointsRequired = 0) := by
  unfold ParseCurriculum at h
  simp only [] at h
  cases ht : jString (jLookup (getCurriculumStructure data) "credit_points") with
  | none => rw [ht] at h; simp at h
  | some totalStr =>
      rw [ht] at h
      simp only [] at h
      cases ha : jArrOpt (jLookup (getCurriculumStructure data) "container") with
      | none => rw [ha] at h; simp at h
      | some partsData =>
          rw [ha] at h
          simp only [] at h
          cases hl : parsePartsLoop (StringToInt totalStr) partsData with
          | error e => rw [hl] at h; simp at h
          | ok parts =>
              rw [hl] at h
              simp only [] at h
              have h' := Except.ok.inj h
              subst h'
              intro p hp
              obtain ⟨pv, _, hparse⟩ := parsePartsLoop_mem hl p hp
              obtain ⟨m, rfl⟩ := parsePart_obj hparse
              refine ⟨m, hparse, fun hcp => ?_⟩
              have hf := (parsePart_fields hparse).1
              rw [hcp] at hf
              simpa using hf

/-- C9 witness: a curriculum with total credit points 48 and one part whose
required credit points also parse as 48 — the part comes out with
CreditPointsRequired 0. -/
theorem c9_witness :
    ∃ m, parsePart
        (Curriculum.mk 48 [Part.mk "Part A" "" 0 [] [] 1 "AND"]).totalCreditPoints
        (.obj m) = .ok (some (Part.mk "Part A" "" 0 [] [] 1 "AND")) ∧
      (StringToInt (jStringD (jLookup m "credit_points")) =
          (Curriculum.mk 48 [Part.mk "Part A" "" 0 [] [] 1 "AND"]).totalCreditPoints →
        (Part.mk "Part A" "" 0 [] [] 1 "AND").creditPointsRequired = 0) := by
  have heval : ParseCurriculum
      [("props", .obj [("pageProps", .obj [("pageContent", .obj [("curriculumStructure",
        .obj [("credit_points", .s "48"), ("container", .arr [
          .obj [("title", .s "Part A"), ("credit_points", .s "48"), ("order", .s "1")]
        ])])])])])]
      = .ok (Curriculum.mk 48 [Part.mk "Part A" "" 0 [] [] 1 "AND"]) := by
    simp [ParseCurriculum, getCurriculumStructure, findInterface, jLookup, jString,
      jStringD, jArrOpt, parsePartsLoop, parsePart, StringToInt, firstDigitRunAux,
      digitsToNat, RemoveHTMLTags, brPass, stripTags]
  exact c9_credit_normalization _ _ heval (Part.mk "Part A" "" 0 [] [] 1 "AND")
    (List.mem_cons_self _ _)

theorem c5_parseContainers_inner : parseContainers (.arr [
      .obj [("title", .s "Y"), ("credit_points", .s "5"),
        ("parent_connector", .obj [("value", .s "OR")])]])
    = .ok ([Container.mk "Y" "" 5 [] [] "AND"], "OR") := by
  simp [parseContainers, parseContainersLoop, parseItems, parseItemsLoop, jLookup,
    jString, jStringD, jObjD, StringToInt, firstDigitRunAux, digitsToNat,
    RemoveHTMLTags, brPass, stripTags, Container.creditPointsRequired]

theorem c5_parseContainers_eval : parseContainers (.arr [
      .obj [("title", .s "X"), ("credit_points", .s "12"),
        ("parent_connector", .obj [("value", .s "AND")]),
        ("container", .arr [
          .obj [("title", .s "Y"), ("credit_points", .s "5"),
            ("parent_connector", .obj [("value", .s "OR")])]])]])
    = .ok ([Container.mk "X" "" 12 [Container.mk "Y" "" 5 [] [] "AND"] [] "OR"], "AND") := by
  simp [parseContainers, parseContainersLoop, parseItems, parseItemsLoop, jLookup,
    jString, jStringD, jObjD, StringToInt, firstDigitRunAux, digitsToNat,
    RemoveHTMLTags, brPass, stripTags, Container.creditPointsRequired,
    c5_parseContainers_inner]

theorem c5_parse_lemma (craw : JValue)
    (hc : parseContainers craw = .ok ([Container.mk "X" "" 12
        [Container.mk "Y" "" 5 [] [] "AND"] [] "OR"], "AND")) :
    ParseCurriculum
      [("props", .obj [("pageProps", .obj [("pageContent", .obj [("curriculumStructure",
        .obj [("credit_points", .s "96"), ("container", .arr [
          .obj [("credit_points", .s "24"), ("order", .s "1"),
            ("container", craw)]])])])])])]
      = .ok (Curriculum.mk 96 [Part.mk "" "" 24
          [Container.mk "X" "" 12 [Container.mk "Y" "" 5 [] [] "AND"] [] "OR"]
          [] 1 "AND"]) := by
  simp [ParseCurriculum, getCurriculumStructure, findInterface, jLookup, jString,
    jStringD, jArrOpt, parsePartsLoop, parsePart, StringToInt, firstDigitRunAux,
    digitsToNat, RemoveHTMLTags, brPass, stripTags, Container.creditPointsRequired, hc]

/-- C5 counterexample: ParseCurriculum emits the Container node X with
Connector "OR", inherited from its nested containers' explicit
parent-connector label, even though X's first (and only) nested container
declares 5 credit points while X requires 12 and X has no academic items —
refuting the claim that every parsed node's Connector is "AND" unless its
first child's credit points equal the node's own. -/
theorem c5_counterexample :
    ∃ curr, ParseCurriculum
      [("props", .obj [("pageProps", .obj [("pageContent", .obj [("curriculumStructure",
        .obj [("credit_points", .s "96"), ("container", .arr [
          .obj [("credit_points", .s "24"), ("order", .s "1"),
            ("container", .arr [
              .obj [("title", .s "X"), ("credit_points", .s "12"),
                ("parent_connector", .obj [("value", .s "AND")]),
                ("container", .arr [
                  .obj [("title", .s "Y"), ("credit_points", .s "5"),
                    ("parent_connector", .obj [("value", .s "OR")])]])]])]])])])])])]
      = .ok curr ∧
    ∃ p ∈ curr.parts, ∃ cont ∈ p.containers, ∃ c0 cs,
      cont.containers = c0 :: cs ∧
      cont.academicItems = [] ∧
      c0.creditPointsRequired ≠ cont.creditPointsRequired ∧
      cont.connector = "OR" := by
  have heval := c5_parse_lemma _ c5_parseContainers_eval
  refine ⟨_, heval, Part.mk "" "" 24
      [Container.mk "X" "" 12 [Container.mk "Y" "" 5 [] [] "AND"] [] "OR"] [] 1 "AND",
    List.mem_cons_self _ _,
    Container.mk "X" "" 12 [Container.mk "Y" "" 5 [] [] "AND"] [] "OR",
    List.mem_cons_self _ _,
    Container.mk "Y" "" 5 [] [] "AND", [], rfl, rfl, by decide, rfl⟩

/-- C5 amended: for Part nodes the claim's rule holds exactly — a parsed
Part's Connector is "AND" or "OR", and it is "OR" iff its first container's
required credit points (or, when there are no containers, its first academic
item's credit points) equal the Part's own parsed required credit points.
Container nodes may additionally inherit their Connector from their nested
containers' explicit parent-connector label, as the counterexample shows. -/
theorem c5_amended (data : List (String × JValue)) (curr : Curriculum)
    (h : ParseCurriculum data = .ok curr) :
    ∀ p ∈ curr.parts, (p.connector = "AND" ∨ p.connector = "OR") ∧
      ∃ m, parsePart curr.totalCreditPoints (.obj m) = .ok (some p) ∧
        (p.connector = "OR" ↔
          ((∃ c0 cs, p.containers = c0 :: cs ∧
             c0.creditPointsRequired = StringToInt (jStringD (jLookup m "credit_points"))) ∨
           (p.containers = [] ∧ ∃ i0 is2, p.academicItems = i0 :: is2 ∧
             i0.creditPoints = StringToInt (jStringD (jLookup m "credit_points"))))) := by
  unfold ParseCurriculum at h
  simp only [] at h
  cases ht : jString (jLookup (getCurriculumStructure data) "credit_points") with
  | none => rw [ht] at h; simp at h
  | some totalStr =>
      rw [ht] at h
      simp only [] at h
      cases ha : jArrOpt (jLookup (getCurriculumStructure data) "container") with
      | none => rw [ha] at h; simp at h
      | some partsData =>
          rw [ha] at h
          simp only [] at h
          cases hl : parsePartsLoop (StringToInt totalStr) partsData with
          | error e => rw [hl] at h; simp at h
          | ok parts =>
              rw [hl] at h
              simp only [] at h
              have h' := Except.ok.inj h
              subst h'
              intro p hp
              obtain ⟨pv, _, hparse⟩ := parsePartsLoop_mem hl p hp
              obtain ⟨m, rfl⟩ := parsePart_obj hparse
              exact ⟨(parsePart_fields hparse).2.1, m, hparse,
                (parsePart_fields hparse).2.2⟩

/-- C5 witness: scenario 5 — a Part with required credit points 12 whose
first container also requires 12 comes out with Connector "OR", while a Part
requiring 24 whose first container requires 12 keeps Connector "AND"; the
amended theorem applies to the latter part. -/
theorem c5_witness :
    (∃ curr, ParseCurriculum
      [("props", .obj [("pageProps", .obj [("pageContent", .obj [("curriculumStructure",
        .obj [("credit_points", .s "96"), ("container", .arr [
          .obj [("title", .s "Part A"), ("credit_points", .s "12"), ("order", .s "1"),
            ("container", .arr [
              .obj [("title", .s "X"), ("credit_points", .s "12"),
                ("parent_connector", .obj [("value", .s "AND")])]])]])])])])])]
      = .ok curr ∧ ∃ p ∈ curr.parts, p.connector = "OR") ∧
    (∃ curr, ParseCurriculum
      [("props", .obj [("pageProps", .obj [("pageContent", .obj [("curriculumStructure",
        .obj [("credit_points", .s "96"), ("container", .arr [
          .obj [("title", .s "Part B"), ("credit_points", .s "24"), ("order", .s "1"),
            ("container", .arr [
              .obj [("title", .s "X"), ("credit_points", .s "12"),
                ("parent_connector", .obj [("value", .s "AND")])]])]])])])])])]
      = .ok curr ∧ ∃ p ∈ curr.parts, p.connector = "AND" ∧
        (p.connector = "AND" ∨ p.connector = "OR")) := by
  have hevalA : ParseCurriculum
      [("props", .obj [("pageProps", .obj [("pageContent", .obj [("curriculumStructure",
        .obj [("credit_points", .s "96"), ("container", .arr [
          .obj [("title", .s "Part A"), ("credit_points", .s "12"), ("order", .s "1"),
            ("container", .arr [
              .obj [("title", .s "X"), ("credit_points", .s "12"),
                ("parent_connector", .obj [("value", .s "AND")])]])]])])])])])]
      = .ok (Curriculum.mk 96 [Part.mk "Part A" "" 12
          [Container.mk "X" "" 12 [] [] "AND"] [] 1 "OR"]) := by
    simp [ParseCurriculum, getCurriculumStructure, findInterface, jLookup, jString,
      jStringD, jArrOpt, jObjD, parsePartsLoop, parsePart, parseContainers,
      parseContainersLoop, parseItems, parseItemsLoop, StringToInt, firstDigitRunAux,
      digitsToNat, RemoveHTMLTags, brPass, stripTags, Container.creditPointsRequired]
  have hevalB : ParseCurriculum
      [("props", .obj [("pageProps", .obj [("pageContent", .obj [("curriculumStructure",
        .obj [("credit_points", .s "96"), ("container", .arr [
          .obj [("title", .s "Part B"), ("credit_points", .s "24"), ("order", .s "1"),
            ("container", .arr [
              .obj [("title", .s "X"), ("credit_points", .s "12"),
                ("parent_connector", .obj [("value", .s "AND")])]])]])])])])])]
      = .ok (Curriculum.mk 96 [Part.mk "Part B" "" 24
          [Container.mk "X" "" 12 [] [] "AND"] [] 1 "AND"]) := by
    simp [ParseCurriculum, getCurriculumStructure, findInterface, jLookup, jString,
      jStringD, jArrOpt, jObjD, parsePartsLoop, parsePart, parseContainers,
      parseContainersLoop, parseItems, parseItemsLoop, StringToInt, firstDigitRunAux,
      digitsToNat, RemoveHTMLTags, brPass, stripTags, Container.creditPointsRequired]
  constructor
  · exact ⟨_, hevalA, Part.mk "Part A" "" 12 [Container.mk "X" "" 12 [] [] "AND"] [] 1 "OR",
      List.mem_cons_self _ _, rfl⟩
  · refine ⟨_, hevalB, Part.mk "Part B" "" 24 [Container.mk "X" "" 12 [] [] "AND"] [] 1 "AND",
      List.mem_cons_self _ _, rfl, ?_⟩
    exact (c5_amended _ _ hevalB
      (Part.mk "Part B" "" 24 [Container.mk "X" "" 12 [] [] "AND"] [] 1 "AND")
      (List.mem_cons_self _ _)).1

/-- C6 counterexample: a curriculum whose total-credit-points field holds the
non-numeric string "abc" does not fail the build: StringToInt silently yields
0 (strconv.Atoi's error is discarded) and ParseCurriculum succeeds, refuting
the claim that a non-numeric value makes ParseCurriculum return an error. -/
theorem c6_counterexample :
    StringToInt "abc" = 0 ∧
    ParseCurriculum
      [("props", .obj [("pageProps", .obj [("pageContent", .obj [("curriculumStructure",
        .obj [("credit_points", .s "abc"), ("container", .arr [])])])])])]
      = .ok (Curriculum.mk 0 []) := by
  constructor
  · decide
  · simp [ParseCurriculum, getCurriculumStructure, findInterface, jLookup, jString,
      jStringD, jArrOpt, parsePartsLoop, StringToInt, firstDigitRunAux, digitsToNat]

/-- C6 amended: when the curriculum's total-credit-points field is missing or
holds a non-string value, ParseCurriculum fails with the error "total credit
points not found or not a string"; but a string value that parses as
non-numeric does not fail the build: StringToInt discards strconv.Atoi's
error and returns 0 for every digit-free string, so a curriculum document
whose total-credit-points field holds any digit-free string (and whose part
container is an empty array) is built successfully as a Curriculum with
total credit points 0 instead of returning an error. -/
theorem c6_amended :
    (∀ data : List (String × JValue),
      jString (jLookup (getCurriculumStructure data) "credit_points") = none →
      ParseCurriculum data = .error "total credit points not found or not a string") ∧
    (∀ s : String, firstDigitRunAux s.data = [] → StringToInt s = 0) ∧
    (∀ s : String, firstDigitRunAux s.data = [] →
      ParseCurriculum
        [("props", .obj [("pageProps", .obj [("pageContent", .obj [("curriculumStructure",
          .obj [("credit_points", .s s), ("container", .arr [])])])])])]
        = .ok (Curriculum.mk 0 [])) := by
  refine ⟨?_, ?_, ?_⟩
  · intro data hnone
    unfold ParseCurriculum
    simp only []
    rw [hnone]
  · intro s hrun
    unfold StringToInt
    rw [hrun]
    simp
  · intro s hrun
    simp [ParseCurriculum, getCurriculumStructure, findInterface, jLookup, jString,
      jArrOpt, parsePartsLoop, StringToInt, hrun]

/-- C6 witness: the amended theorem applied at the empty document (no
credit-points field anywhere), at the digit-free string "xyz", and at a
curriculum document whose total-credit-points field is "xyz". -/
theorem c6_witness :
    ParseCurriculum [] = .error "total credit points not found or not a string" ∧
    StringToInt "xyz" = 0 ∧
    ParseCurriculum
      [("props", .obj [("pageProps", .obj [("pageContent", .obj [("curriculumStructure",
        .obj [("credit_points", .s "xyz"), ("container", .arr [])])])])])]
      = .ok (Curriculum.mk 0 []) := by
  refine ⟨?_, ?_, ?_⟩
  · exact c6_amended.1 [] (by decide)
  · exact c6_amended.2.1 "xyz" (by decide)
  · exact c6_amended.2.2 "xyz" (by decide)

theorem c7_core_eval : parseContainers (.arr [
      .obj [("credit_points", .s "24"),
        ("parent_connector", .obj [("value", .s "AND")]),
        ("relationship", .arr [
          .obj [("academic_item_code", .s "FIT1001"),
                ("academic_item_credit_points", .s "6")]]),
        ("container", .arr [
          .obj [("credit_points", .s "12"),
            ("parent_connector", .obj [("value", .s "AND")])]])]])
    = .ok ([Container.mk "" "" 24 [Container.mk "" "" 12 [] [] "AND"]
        [AcademicItem.mk "" "" "FIT1001" "" 6 ""] "AND"], "AND") := by
  simp [parseContainers, parseContainersLoop, parseItems, parseItemsLoop, jLookup,
    jString, jStringD, jObjD, StringToInt, firstDigitRunAux, digitsToNat,
    RemoveHTMLTags, brPass, stripTags, Container.creditPointsRequired]

theorem c7_parse_lemma (craw : JValue)
    (hc : parseContainers craw = .ok ([Container.mk "" "" 24
        [Container.mk "" "" 12 [] [] "AND"]
        [AcademicItem.mk "" "" "FIT1001" "" 6 ""] "AND"], "AND")) :
    ParseCurriculum
      [("props", .obj [("pageProps", .obj [("pageContent", .obj [("curriculumStructure",
        .obj [("credit_points", .s "96"), ("container", .arr [
          .obj [("credit_points", .s "48"), ("order", .s "1"),
            ("container", craw)]])])])])])]
      = .ok (Curriculum.mk 96 [Part.mk "" "" 48 [Container.mk "" "" 24
          [Container.mk "" "" 12 [] [] "AND"]
          [AcademicItem.mk "" "" "FIT1001" "" 6 ""] "AND"]
          [] 1 "AND"]) := by
  simp [ParseCurriculum, getCurriculumStructure, findInterface, jLookup, jString,
    jStringD, jArrOpt, parsePartsLoop, parsePart, StringToInt, firstDigitRunAux,
    digitsToNat, RemoveHTMLTags, brPass, stripTags, Container.creditPointsRequired, hc]

/-- C7: evaluation of the failing input.  A source container element that
carries both a relationship list and nested containers is emitted by
ParseCurriculum as a Container with both AcademicItems and Containers
populated, contradicting the claimed invariant — which the source itself
documents: the Container doc comment in the Go code states that containers
cannot contain both academic items and child containers simultaneously. -/
theorem c7_bug_eval :
    ∃ curr, ParseCurriculum
      [("props", .obj [("pageProps", .obj [("pageContent", .obj [("curriculumStructure",
        .obj [("credit_points", .s "96"), ("container", .arr [
          .obj [("credit_points", .s "48"), ("order", .s "1"),
            ("container", .arr [
              .obj [("credit_points", .s "24"),
                ("parent_connector", .obj [("value", .s "AND")]),
                ("relationship", .arr [
                  .obj [("academic_item_code", .s "FIT1001"),
                        ("academic_item_credit_points", .s "6")]]),
                ("container", .arr [
                  .obj [("credit_points", .s "12"),
                    ("parent_connector", .obj [("value", .s "AND")])]])]])]])])])])])]
      = .ok curr ∧
    ∃ p ∈ curr.parts, ∃ cont ∈ p.containers,
      cont.containers ≠ [] ∧ cont.academicItems ≠ [] := by
  have heval := c7_parse_lemma _ c7_core_eval
  refine ⟨_, heval, Part.mk "" "" 48
      [Container.mk "" "" 24 [Container.mk "" "" 12 [] [] "AND"]
        [AcademicItem.mk "" "" "FIT1001" "" 6 ""] "AND"] [] 1 "AND",
    List.mem_cons_self _ _,
    Container.mk "" "" 24 [Container.mk "" "" 12 [] [] "AND"]
      [AcademicItem.mk "" "" "FIT1001" "" 6 ""] "AND",
    List.mem_cons_self _ _, ?_, ?_⟩
  · simp [Container.containers]
  · simp [Container.academicItems]
end Handbook
